/-
Verification of the RAG (Red/Amber/Green) classification and report
categorization core of the Jira reporting repository.

The definitions below are a shallow embedding of
`jira_mcp_server/rag_classifier.py`, `jira_mcp_server/config.py`,
`jira_mcp_server/models.py` and `jira_mcp_server/report_generator.py`.
Python strings are Lean `String`s, Python `int` is `Int`, counts are `Nat`,
Python `float` thresholds and confidences are `ℚ` (only the exact values
0, 0.2, 0.3 and 1.0 occur), `datetime` values are `Int` microsecond
timestamps, and `None`-able fields are `Option`s.
-/

import Mathlib

namespace JiraRag

/-- Embeds `models.RAGStatus`. -/
inductive RAGStatus where
  | RED
  | AMBER
  | GREEN
deriving DecidableEq, Repr

/-- Embeds `models.IssueStatus`. -/
structure IssueStatus where
  id : String
  name : String
  category : String
deriving DecidableEq, Repr

/-- Embeds `models.User` (fields the core reads). -/
structure User where
  account_id : String
  display_name : String
deriving DecidableEq, Repr

/-- Embeds `models.Issue` (fields the classification and categorization
core reads or writes; timestamps are microsecond integers). -/
structure Issue where
  key : String
  summary : String
  status : IssueStatus
  priority : String
  assignee : Option User
  updated : Int
  resolved : Option Int
  labels : List String
  blockers : List String
  rag_status : Option RAGStatus := none
  rag_reason : Option String := none
  days_in_status : Option Int := none
  is_blocked : Bool := false
deriving DecidableEq, Repr

/-- Embeds `config.RAGConfig`. -/
structure RAGConfig where
  green_max_days_in_status : Int := 3
  yellow_max_days_in_status : Int := 7
  red_priority_levels : List String := ["Highest", "High"]
  blocked_statuses : List String := ["Blocked", "Waiting"]
deriving DecidableEq, Repr

/-- The default `RAGConfig()` of `config.py`. -/
def defaultRAGConfig : RAGConfig := {}

/-- Embeds `rag_classifier.RAGClassificationResult` (a NamedTuple with
default confidence 1.0). -/
structure RAGClassificationResult where
  status : RAGStatus
  reason : String
  confidence : ℚ := 1
deriving DecidableEq, Repr

/-- Python's `str.lower()` restricted to the ASCII casing the code uses. -/
def pyLower (s : String) : String := String.mk (s.data.map Char.toLower)

/-- Python's substring test `needle in hay`, on the character lists of the
two strings. -/
def hasSublist (needle : List Char) : List Char → Bool
  | [] => needle.isEmpty
  | c :: t => needle.isPrefixOf (c :: t) || hasSublist needle t

/-- Python's `needle in hay` on strings. -/
def strContains (hay needle : String) : Bool := hasSublist needle.data hay.data

/-- First red check of `RAGClassifier._check_red_conditions`: explicitly
blocked issues (`is_blocked` or a blocked-status substring match). -/
def redBlockedRule (cfg : RAGConfig) (issue : Issue) : Option RAGClassificationResult :=
  if issue.is_blocked ||
      (cfg.blocked_statuses.map pyLower).any
        (fun status => strContains (pyLower issue.status.name) status) then
    some { status := .RED, reason := "Issue is in blocked status: " ++ issue.status.name }
  else none

/-- Second red check: high priority issues in status longer than the
yellow threshold. -/
def redOverdueRule (cfg : RAGConfig) (issue : Issue) : Option RAGClassificationResult :=
  match issue.days_in_status with
  | some d =>
    if cfg.red_priority_levels.contains issue.priority
        && decide (d > cfg.yellow_max_days_in_status) then
      some { status := .RED,
             reason := "High priority issue (" ++ issue.priority ++ ") has been in "
               ++ issue.status.name ++ " for " ++ toString d ++ " days" }
    else none
  | none => none

/-- Third red check: issues with blocker links. -/
def redBlockersRule (issue : Issue) : Option RAGClassificationResult :=
  if !issue.blockers.isEmpty then
    some { status := .RED,
           reason := "Issue has " ++ toString issue.blockers.length ++ " blocking dependencies" }
  else none

/-- The fixed critical-label vocabulary of `_check_red_conditions`. -/
def criticalLabels : List String := ["critical-blocker", "production-issue", "escalated"]

/-- Fourth red check: critical labels (substring, case-insensitive). -/
def redCriticalRule (issue : Issue) : Option RAGClassificationResult :=
  let found := issue.labels.filter
    (fun label => criticalLabels.any (fun critical => strContains (pyLower label) critical))
  if !found.isEmpty then
    some { status := .RED,
           reason := "Issue has critical labels: " ++ String.intercalate ", " found }
  else none

/-- Embeds `RAGClassifier._check_red_conditions`: the four red checks in
source order, first match wins. -/
def checkRedConditions (cfg : RAGConfig) (issue : Issue) : Option RAGClassificationResult :=
  match redBlockedRule cfg issue with
  | some r => some r
  | none =>
    match redOverdueRule cfg issue with
    | some r => some r
    | none =>
      match redBlockersRule issue with
      | some r => some r
      | none => redCriticalRule issue

/-- First amber check of `_check_amber_conditions`: in status longer than
the green threshold but within the yellow threshold. -/
def amberAgeRule (cfg : RAGConfig) (issue : Issue) : Option RAGClassificationResult :=
  match issue.days_in_status with
  | some d =>
    if decide (d > cfg.green_max_days_in_status) then
      if decide (d ≤ cfg.yellow_max_days_in_status) then
        some { status := .AMBER,
               reason := "Issue has been in " ++ issue.status.name ++ " for "
                 ++ toString d ++ " days" }
      else none
    else none
  | none => none

/-- Second amber check: high priority issues even when not overdue. -/
def amberPriorityRule (cfg : RAGConfig) (issue : Issue) : Option RAGClassificationResult :=
  if cfg.red_priority_levels.contains issue.priority then
    some { status := .AMBER,
           reason := "High priority issue (" ++ issue.priority ++ ") requires close monitoring" }
  else none

/-- The risk-label vocabulary of `_check_amber_conditions`. -/
def riskLabels : List String := ["risk", "concern", "dependency", "delayed"]

/-- Third amber check: risk-related labels (substring, case-insensitive). -/
def amberRiskRule (issue : Issue) : Option RAGClassificationResult :=
  let found := issue.labels.filter
    (fun label => riskLabels.any (fun risk => strContains (pyLower label) risk))
  if !found.isEmpty then
    some { status := .AMBER,
           reason := "Issue has risk-related labels: " ++ String.intercalate ", " found }
  else none

/-- Fourth amber check: unassigned issues past the green threshold. -/
def amberUnassignedRule (cfg : RAGConfig) (issue : Issue) : Option RAGClassificationResult :=
  if issue.assignee.isNone then
    match issue.days_in_status with
    | some d =>
      if decide (d > cfg.green_max_days_in_status) then
        some { status := .AMBER,
               reason := "Unassigned issue has been in " ++ issue.status.name ++ " for "
                 ++ toString d ++ " days" }
      else none
    | none => none
  else none

/-- The development-status vocabulary of `_check_amber_conditions`. -/
def developmentStatuses : List String := ["in progress", "development", "coding", "implementation"]

/-- Fifth amber check: possibly stalled development-status issues. -/
def amberStalledRule (cfg : RAGConfig) (issue : Issue) : Option RAGClassificationResult :=
  if developmentStatuses.any (fun devStatus => strContains (pyLower issue.status.name) devStatus) then
    match issue.days_in_status with
    | some d =>
      if decide (d > cfg.green_max_days_in_status) then
        some { status := .AMBER,
               reason := "Development issue has been in progress for " ++ toString d ++ " days" }
      else none
    | none => none
  else none

/-- Embeds `RAGClassifier._check_amber_conditions`: the five amber checks
in source order, first match wins. -/
def checkAmberConditions (cfg : RAGConfig) (issue : Issue) : Option RAGClassificationResult :=
  match amberAgeRule cfg issue with
  | some r => some r
  | none =>
    match amberPriorityRule cfg issue with
    | some r => some r
    | none =>
      match amberRiskRule issue with
      | some r => some r
      | none =>
        match amberUnassignedRule cfg issue with
        | some r => some r
        | none => amberStalledRule cfg issue

/-- The green default verdict of `RAGClassifier.classify_issue`. -/
def greenResult : RAGClassificationResult :=
  { status := .GREEN, reason := "Issue is progressing normally with no identified risks" }

/-- Embeds `RAGClassifier.classify_issue`: red checks first, then amber,
then the green default. -/
def classifyIssue (cfg : RAGConfig) (issue : Issue) : RAGClassificationResult :=
  match checkRedConditions cfg issue with
  | some red_result => red_result
  | none =>
    match checkAmberConditions cfg issue with
    | some amber_result => amber_result
    | none => greenResult

/-- The in-place verdict write of `classify_issues_batch`: sets
`issue.rag_status` and `issue.rag_reason` from a classification result. -/
def updateIssueWith (issue : Issue) (result : RAGClassificationResult) : Issue :=
  { issue with rag_status := some result.status, rag_reason := some result.reason }

/-- Python dict assignment `results[key] = result`: overwrite in place if
the key is present, else append. -/
def dictInsert (m : List (String × RAGClassificationResult)) (key : String)
    (result : RAGClassificationResult) : List (String × RAGClassificationResult) :=
  match m with
  | [] => [(key, result)]
  | (k, v) :: t => if k == key then (k, result) :: t else (k, v) :: dictInsert t key result

/-- Loop of `RAGClassifier.classify_issues_batch` on the success path:
classify each issue, record the verdict under its key, and write the
verdict back onto the issue record. Returns the results dict together
with the mutated issue list. -/
def classifyBatchGo (cfg : RAGConfig) (acc : List (String × RAGClassificationResult)) :
    List Issue → List (String × RAGClassificationResult) × List Issue
  | [] => (acc, [])
  | issue :: rest =>
    let result := classifyIssue cfg issue
    let (results, rest') := classifyBatchGo cfg (dictInsert acc issue.key result) rest
    (results, updateIssueWith issue result :: rest')

/-- Embeds `RAGClassifier.classify_issues_batch` (the embedded
`classifyIssue` is total, so the `except` branch is unreachable here; the
exception path is modelled separately by `classifyBatchE`). -/
def classifyIssuesBatch (cfg : RAGConfig) (issues : List Issue) :
    List (String × RAGClassificationResult) × List Issue :=
  classifyBatchGo cfg [] issues

/-- The degraded verdict built in the `except` branch of
`classify_issues_batch`: AMBER, error reason, zero confidence. -/
def errorResult (e : String) : RAGClassificationResult :=
  { status := .AMBER, reason := "Classification error: " ++ e, confidence := 0 }

/-- `classify_issue` as a fallible call: `fail` abstracts the exceptions
the `try` of `classify_issues_batch` guards against (`some e` means the
call raises with message `e`). -/
def classifyIssueE (cfg : RAGConfig) (fail : Issue → Option String) (issue : Issue) :
    Except String RAGClassificationResult :=
  match fail issue with
  | some e => .error e
  | none => .ok (classifyIssue cfg issue)

/-- The per-issue outcome of the batch loop body: the classification
result on success, the degraded AMBER verdict on an exception. -/
def batchResultOf (cfg : RAGConfig) (fail : Issue → Option String) (issue : Issue) :
    RAGClassificationResult :=
  match classifyIssueE cfg fail issue with
  | .ok result => result
  | .error e => errorResult e

/-- Loop of `classify_issues_batch` with the exception path: a raising
issue is caught, recorded with the degraded verdict, and the loop
continues with the remaining issues. -/
def classifyBatchEGo (cfg : RAGConfig) (fail : Issue → Option String)
    (acc : List (String × RAGClassificationResult)) :
    List Issue → List (String × RAGClassificationResult) × List Issue
  | [] => (acc, [])
  | issue :: rest =>
    let result := batchResultOf cfg fail issue
    let (results, rest') := classifyBatchEGo cfg fail (dictInsert acc issue.key result) rest
    (results, updateIssueWith issue result :: rest')

/-- `classify_issues_batch` with the exception path made explicit. -/
def classifyBatchE (cfg : RAGConfig) (fail : Issue → Option String) (issues : List Issue) :
    List (String × RAGClassificationResult) × List Issue :=
  classifyBatchEGo cfg fail [] issues

/-- Embeds the summary dict of `RAGClassifier.get_rag_summary`. -/
structure RagSummary where
  total : Nat
  green : Nat
  amber : Nat
  red : Nat
  unclassified : Nat
deriving DecidableEq, Repr

/-- One iteration of the `get_rag_summary` loop. -/
def bumpSummary (s : RagSummary) (issue : Issue) : RagSummary :=
  match issue.rag_status with
  | some .GREEN => { s with green := s.green + 1 }
  | some .AMBER => { s with amber := s.amber + 1 }
  | some .RED => { s with red := s.red + 1 }
  | none => { s with unclassified := s.unclassified + 1 }

/-- Embeds `RAGClassifier.get_rag_summary`. -/
def getRagSummary (issues : List Issue) : RagSummary :=
  issues.foldl bumpSummary
    { total := issues.length, green := 0, amber := 0, red := 0, unclassified := 0 }

/-- Embeds `RAGClassifier.get_overall_status`. -/
def getOverallStatus (issues : List Issue) : RAGStatus :=
  if issues.isEmpty then .GREEN
  else
    let summary := getRagSummary issues
    if summary.red > 0 then .RED
    else
      let amber_percentage : ℚ :=
        if summary.total > 0 then (summary.amber : ℚ) / (summary.total : ℚ) else 0
      if amber_percentage > 0.2 then .AMBER else .GREEN

/-!  Report categorizer, from `report_generator.py`.  -/

/-- Microseconds per day; `datetime.max.time()` is one microsecond short
of the following midnight. -/
def microsPerDay : Int := 86400000000

/-- The in-progress vocabulary of `ReportGenerator._was_started_this_week`. -/
def inProgressStatuses : List String :=
  ["in progress", "development", "coding", "implementation",
   "in development", "work in progress", "doing"]

/-- Embeds `ReportGenerator._was_started_this_week`: in-progress status
name and updated within the window. -/
def wasStartedThisWeek (issue : Issue) (week_start week_end : Int) : Bool :=
  inProgressStatuses.any (fun status => strContains (pyLower issue.status.name) status)
    && decide (week_start ≤ issue.updated) && decide (issue.updated ≤ week_end)

/-- Embeds `ReportGenerator._was_completed_this_week`: resolved non-null
and within the window (inclusive on both ends). -/
def wasCompletedThisWeek (issue : Issue) (week_start week_end : Int) : Bool :=
  match issue.resolved with
  | some r => decide (week_start ≤ r) && decide (r ≤ week_end)
  | none => false

/-- Embeds `models.WeeklyReportData` (the fields the categorization logic
computes; the `report_week` display string and manual sections are
rendering-only and carry no logic). -/
structure WeeklyReportData where
  team_name : String
  started_issues : List Issue
  completed_issues : List Issue
  blocked_issues : List Issue
  at_risk_issues : List Issue
  total_issues : Nat
  green_count : Nat
  amber_count : Nat
  red_count : Nat
  overall_rag_status : RAGStatus
deriving DecidableEq, Repr

/-- The categorization loop of `_categorize_issues_for_report`: each issue
is appended to the started/completed/blocked/at-risk lists it qualifies
for (blocked and at-risk are mutually exclusive via the `elif`). -/
def categorizeGo (week_start week_end : Int) :
    List Issue → List Issue × List Issue × List Issue × List Issue
  | [] => ([], [], [], [])
  | issue :: rest =>
    let (s, c, b, a) := categorizeGo week_start week_end rest
    (if wasStartedThisWeek issue week_start week_end then issue :: s else s,
     if wasCompletedThisWeek issue week_start week_end then issue :: c else c,
     if issue.rag_status == some .RED then issue :: b else b,
     if issue.rag_status == some .RED then a
     else if issue.rag_status == some .AMBER then issue :: a else a)

/-- Embeds `ReportGenerator._categorize_issues_for_report`: buckets, the
aggregate counts over the full input list, and the bucket-level overall
status (`week_ending` is a day number; the window runs from midnight six
days earlier to the last microsecond of `week_ending`). -/
def categorizeIssuesForReport (team_name : String) (issues : List Issue)
    (week_ending : Int) : WeeklyReportData :=
  let week_start := week_ending - 6
  let week_start_datetime := week_start * microsPerDay
  let week_end_datetime := week_ending * microsPerDay + (microsPerDay - 1)
  let (s, c, b, a) := categorizeGo week_start_datetime week_end_datetime issues
  let green_count := (issues.filter (fun i => i.rag_status == some .GREEN)).length
  let amber_count := (issues.filter (fun i => i.rag_status == some .AMBER)).length
  let red_count := (issues.filter (fun i => i.rag_status == some .RED)).length
  let overall : RAGStatus :=
    if red_count > 0 then .RED
    else if (amber_count : ℚ) > (green_count : ℚ) * 0.3 then .AMBER
    else .GREEN
  { team_name := team_name,
    started_issues := s, completed_issues := c,
    blocked_issues := b, at_risk_issues := a,
    total_issues := issues.length,
    green_count := green_count, amber_count := amber_count, red_count := red_count,
    overall_rag_status := overall }

/-!  Basic lemmas about the rule checkers.  -/

lemma redBlockedRule_status {cfg : RAGConfig} {issue : Issue} {r : RAGClassificationResult}
    (h : redBlockedRule cfg issue = some r) : r.status = .RED := by
  unfold redBlockedRule at h
  split at h
  · injection h with h; subst h; rfl
  · exact Option.noConfusion h

lemma redOverdueRule_status {cfg : RAGConfig} {issue : Issue} {r : RAGClassificationResult}
    (h : redOverdueRule cfg issue = some r) : r.status = .RED := by
  unfold redOverdueRule at h
  split at h
  · split at h
    · injection h with h; subst h; rfl
    · exact Option.noConfusion h
  · exact Option.noConfusion h

lemma redBlockersRule_status {issue : Issue} {r : RAGClassificationResult}
    (h : redBlockersRule issue = some r) : r.status = .RED := by
  unfold redBlockersRule at h
  split at h
  · injection h with h; subst h; rfl
  · exact Option.noConfusion h

lemma redCriticalRule_status {issue : Issue} {r : RAGClassificationResult}
    (h : redCriticalRule issue = some r) : r.status = .RED := by
  unfold redCriticalRule at h
  dsimp only at h
  split at h
  · injection h with h; subst h; rfl
  · exact Option.noConfusion h

lemma checkRed_status {cfg : RAGConfig} {issue : Issue} {r : RAGClassificationResult}
    (h : checkRedConditions cfg issue = some r) : r.status = .RED := by
  unfold checkRedConditions at h
  cases h1 : redBlockedRule cfg issue with
  | some v =>
    rw [h1] at h; injection h with h; subst h; exact redBlockedRule_status h1
  | none =>
    rw [h1] at h
    cases h2 : redOverdueRule cfg issue with
    | some v =>
      rw [h2] at h; injection h with h; subst h; exact redOverdueRule_status h2
    | none =>
      rw [h2] at h
      cases h3 : redBlockersRule issue with
      | some v =>
        rw [h3] at h; injection h with h; subst h; exact redBlockersRule_status h3
      | none =>
        rw [h3] at h; exact redCriticalRule_status h

lemma amberAgeRule_status {cfg : RAGConfig} {issue : Issue} {r : RAGClassificationResult}
    (h : amberAgeRule cfg issue = some r) : r.status = .AMBER := by
  unfold amberAgeRule at h
  split at h
  · split at h
    · split at h
      · injection h with h; subst h; rfl
      · exact Option.noConfusion h
    · exact Option.noConfusion h
  · exact Option.noConfusion h

lemma amberPriorityRule_status {cfg : RAGConfig} {issue : Issue} {r : RAGClassificationResult}
    (h : amberPriorityRule cfg issue = some r) : r.status = .AMBER := by
  unfold amberPriorityRule at h
  split at h
  · injection h with h; subst h; rfl
  · exact Option.noConfusion h

lemma amberRiskRule_status {issue : Issue} {r : RAGClassificationResult}
    (h : amberRiskRule issue = some r) : r.status = .AMBER := by
  unfold amberRiskRule at h
  dsimp only at h
  split at h
  · injection h with h; subst h; rfl
  · exact Option.noConfusion h

lemma amberUnassignedRule_status {cfg : RAGConfig} {issue : Issue} {r : RAGClassificationResult}
    (h : amberUnassignedRule cfg issue = some r) : r.status = .AMBER := by
  unfold amberUnassignedRule at h
  split at h
  · split at h
    · split at h
      · injection h with h; subst h; rfl
      · exact Option.noConfusion h
    · exact Option.noConfusion h
  · exact Option.noConfusion h

lemma amberStalledRule_status {cfg : RAGConfig} {issue : Issue} {r : RAGClassificationResult}
    (h : amberStalledRule cfg issue = some r) : r.status = .AMBER := by
  unfold amberStalledRule at h
  split at h
  · split at h
    · split at h
      · injection h with h; subst h; rfl
      · exact Option.noConfusion h
    · exact Option.noConfusion h
  · exact Option.noConfusion h

lemma checkAmber_status {cfg : RAGConfig} {issue : Issue} {r : RAGClassificationResult}
    (h : checkAmberConditions cfg issue = some r) : r.status = .AMBER := by
  unfold checkAmberConditions at h
  cases h1 : amberAgeRule cfg issue with
  | some v => rw [h1] at h; injection h with h; subst h; exact amberAgeRule_status h1
  | none =>
    rw [h1] at h
    cases h2 : amberPriorityRule cfg issue with
    | some v => rw [h2] at h; injection h with h; subst h; exact amberPriorityRule_status h2
    | none =>
      rw [h2] at h
      cases h3 : amberRiskRule issue with
      | some v => rw [h3] at h; injection h with h; subst h; exact amberRiskRule_status h3
      | none =>
        rw [h3] at h
        cases h4 : amberUnassignedRule cfg issue with
        | some v => rw [h4] at h; injection h with h; subst h; exact amberUnassignedRule_status h4
        | none => rw [h4] at h; exact amberStalledRule_status h

lemma classifyIssue_of_red {cfg : RAGConfig} {issue : Issue} {r : RAGClassificationResult}
    (h : checkRedConditions cfg issue = some r) : classifyIssue cfg issue = r := by
  unfold classifyIssue; rw [h]

lemma classifyIssue_of_amber {cfg : RAGConfig} {issue : Issue} {r : RAGClassificationResult}
    (h1 : checkRedConditions cfg issue = none)
    (h2 : checkAmberConditions cfg issue = some r) : classifyIssue cfg issue = r := by
  unfold classifyIssue; rw [h1, h2]

lemma classifyIssue_of_none {cfg : RAGConfig} {issue : Issue}
    (h1 : checkRedConditions cfg issue = none)
    (h2 : checkAmberConditions cfg issue = none) : classifyIssue cfg issue = greenResult := by
  unfold classifyIssue; rw [h1, h2]

lemma checkRed_none {cfg : RAGConfig} {issue : Issue}
    (h : checkRedConditions cfg issue = none) :
    redBlockedRule cfg issue = none ∧ redOverdueRule cfg issue = none ∧
    redBlockersRule issue = none ∧ redCriticalRule issue = none := by
  unfold checkRedConditions at h
  cases h1 : redBlockedRule cfg issue with
  | some v => rw [h1] at h; exact Option.noConfusion h
  | none =>
    rw [h1] at h
    cases h2 : redOverdueRule cfg issue with
    | some v => rw [h2] at h; exact Option.noConfusion h
    | none =>
      rw [h2] at h
      cases h3 : redBlockersRule issue with
      | some v => rw [h3] at h; exact Option.noConfusion h
      | none => rw [h3] at h; exact ⟨rfl, rfl, rfl, h⟩

lemma checkAmber_none {cfg : RAGConfig} {issue : Issue}
    (h : checkAmberConditions cfg issue = none) :
    amberAgeRule cfg issue = none ∧ amberPriorityRule cfg issue = none ∧
    amberRiskRule issue = none ∧ amberUnassignedRule cfg issue = none ∧
    amberStalledRule cfg issue = none := by
  unfold checkAmberConditions at h
  cases h1 : amberAgeRule cfg issue with
  | some v => rw [h1] at h; exact Option.noConfusion h
  | none =>
    rw [h1] at h
    cases h2 : amberPriorityRule cfg issue with
    | some v => rw [h2] at h; exact Option.noConfusion h
    | none =>
      rw [h2] at h
      cases h3 : amberRiskRule issue with
      | some v => rw [h3] at h; exact Option.noConfusion h
      | none =>
        rw [h3] at h
        cases h4 : amberUnassignedRule cfg issue with
        | some v => rw [h4] at h; exact Option.noConfusion h
        | none => rw [h4] at h; exact ⟨rfl, rfl, rfl, rfl, h⟩

lemma checkRed_some_cases {cfg : RAGConfig} {issue : Issue} {r : RAGClassificationResult}
    (h : checkRedConditions cfg issue = some r) :
    redBlockedRule cfg issue = some r ∨ redOverdueRule cfg issue = some r ∨
    redBlockersRule issue = some r ∨ redCriticalRule issue = some r := by
  unfold checkRedConditions at h
  cases h1 : redBlockedRule cfg issue with
  | some v => rw [h1] at h; injection h with h; subst h; exact Or.inl rfl
  | none =>
    rw [h1] at h
    cases h2 : redOverdueRule cfg issue with
    | some v => rw [h2] at h; injection h with h; subst h; exact Or.inr (Or.inl rfl)
    | none =>
      rw [h2] at h
      cases h3 : redBlockersRule issue with
      | some v => rw [h3] at h; injection h with h; subst h; exact Or.inr (Or.inr (Or.inl rfl))
      | none => rw [h3] at h; exact Or.inr (Or.inr (Or.inr h))

lemma checkAmber_some_cases {cfg : RAGConfig} {issue : Issue} {r : RAGClassificationResult}
    (h : checkAmberConditions cfg issue = some r) :
    amberAgeRule cfg issue = some r ∨ amberPriorityRule cfg issue = some r ∨
    amberRiskRule issue = some r ∨ amberUnassignedRule cfg issue = some r ∨
    amberStalledRule cfg issue = some r := by
  unfold checkAmberConditions at h
  cases h1 : amberAgeRule cfg issue with
  | some v => rw [h1] at h; injection h with h; subst h; exact Or.inl rfl
  | none =>
    rw [h1] at h
    cases h2 : amberPriorityRule cfg issue with
    | some v => rw [h2] at h; injection h with h; subst h; exact Or.inr (Or.inl rfl)
    | none =>
      rw [h2] at h
      cases h3 : amberRiskRule issue with
      | some v => rw [h3] at h; injection h with h; subst h; exact Or.inr (Or.inr (Or.inl rfl))
      | none =>
        rw [h3] at h
        cases h4 : amberUnassignedRule cfg issue with
        | some v =>
          rw [h4] at h; injection h with h; subst h
          exact Or.inr (Or.inr (Or.inr (Or.inl rfl)))
        | none => rw [h4] at h; exact Or.inr (Or.inr (Or.inr (Or.inr h)))

/-!  Sample records used by witnesses and counterexamples.  -/

/-- A sample user. -/
def sampleUser : User := { account_id := "u1", display_name := "Sample User" }

/-- A sample workflow status with the given name. -/
def sampleStatus (name : String) : IssueStatus :=
  { id := "1", name := name, category := "To Do" }

/-- A blocked, unassigned, overdue issue: satisfies both a RED condition
(`is_blocked`) and an AMBER condition (unassigned past the green
threshold). -/
def blockedOverdueIssue : Issue :=
  { key := "PROJ-1", summary := "blocked sample", status := sampleStatus "Code Review",
    priority := "Medium", assignee := none, updated := 0, resolved := none,
    labels := [], blockers := [], days_in_status := some 5, is_blocked := true }

/-- A fresh high-priority issue (one day in status). -/
def highPriorityFreshIssue : Issue :=
  { key := "PROJ-2", summary := "high priority sample", status := sampleStatus "Code Review",
    priority := "High", assignee := some sampleUser, updated := 0, resolved := none,
    labels := [], blockers := [], days_in_status := some 1, is_blocked := false }

/-- An issue whose status name is "On Hold" with no other risk signal. -/
def onHoldIssue : Issue :=
  { key := "PROJ-3", summary := "on hold sample", status := sampleStatus "On Hold",
    priority := "Medium", assignee := some sampleUser, updated := 0, resolved := none,
    labels := [], blockers := [], days_in_status := some 1, is_blocked := false }

/-- An issue whose status name contains "Blocked" as a substring. -/
def partiallyBlockedIssue : Issue :=
  { key := "PROJ-4", summary := "partially blocked sample",
    status := sampleStatus "Partially Blocked",
    priority := "Medium", assignee := some sampleUser, updated := 0, resolved := none,
    labels := [], blockers := [], days_in_status := some 1, is_blocked := false }

/-- A high-priority issue whose age in status is unknown. -/
def noAgeHighIssue : Issue :=
  { key := "PROJ-5", summary := "unknown age sample", status := sampleStatus "Code Review",
    priority := "High", assignee := some sampleUser, updated := 0, resolved := none,
    labels := [], blockers := [], days_in_status := none, is_blocked := false }

/-!  Claim theorems.  -/

/-- C1: Rule precedence: for every issue satisfying any RED condition,
`classify_issue` returns RED even when AMBER conditions also hold; in
particular every issue with `is_blocked = true` is RED regardless of all
other fields. -/
theorem red_rules_take_precedence (cfg : RAGConfig) (issue : Issue) :
    ((checkRedConditions cfg issue).isSome → (classifyIssue cfg issue).status = .RED) ∧
    (issue.is_blocked = true → (classifyIssue cfg issue).status = .RED) := by
  constructor
  · intro h
    obtain ⟨r, hr⟩ := Option.isSome_iff_exists.mp h
    rw [classifyIssue_of_red hr]
    exact checkRed_status hr
  · intro hb
    have h1 : redBlockedRule cfg issue =
        some { status := .RED, reason := "Issue is in blocked status: " ++ issue.status.name } := by
      unfold redBlockedRule
      rw [hb]
      simp
    have h2 : checkRedConditions cfg issue =
        some { status := .RED, reason := "Issue is in blocked status: " ++ issue.status.name } := by
      unfold checkRedConditions
      rw [h1]
    rw [classifyIssue_of_red h2]

/-- Witness for C1: a blocked issue that also satisfies the
unassigned-overdue AMBER condition is classified RED. -/
theorem red_rules_take_precedence_witness :
    (classifyIssue defaultRAGConfig blockedOverdueIssue).status = .RED ∧
    (amberUnassignedRule defaultRAGConfig blockedOverdueIssue).isSome = true :=
  ⟨(red_rules_take_precedence defaultRAGConfig blockedOverdueIssue).2 rfl, by decide⟩

/-- C2: an issue whose priority is in the red priority levels is never
GREEN: it is RED as soon as its (known) days in status exceed the yellow
threshold, and otherwise at least AMBER, whatever its age. -/
theorem red_priority_never_green (cfg : RAGConfig) (issue : Issue)
    (hp : cfg.red_priority_levels.contains issue.priority = true) :
    (classifyIssue cfg issue).status ≠ .GREEN ∧
    (∀ d : Int, issue.days_in_status = some d → d > cfg.yellow_max_days_in_status →
      (classifyIssue cfg issue).status = .RED) := by
  constructor
  · cases hr : checkRedConditions cfg issue with
    | some r =>
      rw [classifyIssue_of_red hr, checkRed_status hr]
      decide
    | none =>
      cases ha : checkAmberConditions cfg issue with
      | some a =>
        rw [classifyIssue_of_amber hr ha, checkAmber_status ha]
        decide
      | none =>
        exfalso
        have h5 := (checkAmber_none ha).2.1
        unfold amberPriorityRule at h5
        rw [hp] at h5
        simp at h5
  · intro d hd hgt
    cases hr : checkRedConditions cfg issue with
    | some r =>
      rw [classifyIssue_of_red hr]
      exact checkRed_status hr
    | none =>
      exfalso
      have h2 := (checkRed_none hr).2.1
      unfold redOverdueRule at h2
      rw [hd, hp] at h2
      simp [hgt] at h2

/-- Witness for C2: a fresh high-priority issue is AMBER (never GREEN),
and the same issue at 10 days in status is RED under the default
thresholds. -/
theorem red_priority_never_green_witness :
    (classifyIssue defaultRAGConfig highPriorityFreshIssue).status ≠ .GREEN ∧
    (classifyIssue defaultRAGConfig highPriorityFreshIssue).status = .AMBER ∧
    (classifyIssue defaultRAGConfig
      { highPriorityFreshIssue with days_in_status := some 10 }).status = .RED :=
  ⟨(red_priority_never_green defaultRAGConfig highPriorityFreshIssue (by decide)).1,
   by decide,
   (red_priority_never_green defaultRAGConfig
      { highPriorityFreshIssue with days_in_status := some 10 } (by decide)).2
     10 rfl (by decide)⟩

/-- C3 counterexample: under `config.RAGConfig`'s defaults the blocked
vocabulary is only {"Blocked","Waiting"}; "On Hold" is not in it, and an
issue whose status name is "On Hold" (with no other risk signal) is
classified GREEN, not RED. -/
theorem default_blocked_vocab_counterexample :
    defaultRAGConfig.blocked_statuses ≠ ["Blocked", "Waiting", "On Hold"] ∧
    ¬ ("On Hold" ∈ defaultRAGConfig.blocked_statuses) ∧
    (classifyIssue defaultRAGConfig onHoldIssue).status = .GREEN := by decide

/-- C3 (amended): the default blocked vocabulary equals
{"Blocked","Waiting"}; a status name case-insensitively containing
"blocked" or "waiting" is classified RED under the default configuration,
while a status name of "On Hold" does not trigger the blocked rule. -/
theorem default_blocked_vocab (issue : Issue) :
    defaultRAGConfig.blocked_statuses = ["Blocked", "Waiting"] ∧
    (strContains (pyLower issue.status.name) "blocked" = true →
      (classifyIssue defaultRAGConfig issue).status = .RED) ∧
    (strContains (pyLower issue.status.name) "waiting" = true →
      (classifyIssue defaultRAGConfig issue).status = .RED) ∧
    (issue.is_blocked = false → issue.status.name = "On Hold" →
      redBlockedRule defaultRAGConfig issue = none) := by
  refine ⟨rfl, ?_, ?_, ?_⟩
  · intro h
    have h1 : redBlockedRule defaultRAGConfig issue =
        some { status := .RED, reason := "Issue is in blocked status: " ++ issue.status.name } := by
      unfold redBlockedRule
      have hmap : defaultRAGConfig.blocked_statuses.map pyLower = ["blocked", "waiting"] := rfl
      rw [hmap]
      simp [h]
    have h2 : checkRedConditions defaultRAGConfig issue =
        some { status := .RED, reason := "Issue is in blocked status: " ++ issue.status.name } := by
      unfold checkRedConditions
      rw [h1]
    rw [classifyIssue_of_red h2]
  · intro h
    have h1 : redBlockedRule defaultRAGConfig issue =
        some { status := .RED, reason := "Issue is in blocked status: " ++ issue.status.name } := by
      unfold redBlockedRule
      have hmap : defaultRAGConfig.blocked_statuses.map pyLower = ["blocked", "waiting"] := rfl
      rw [hmap]
      simp [h]
    have h2 : checkRedConditions defaultRAGConfig issue =
        some { status := .RED, reason := "Issue is in blocked status: " ++ issue.status.name } := by
      unfold checkRedConditions
      rw [h1]
    rw [classifyIssue_of_red h2]
  · intro h1 h2
    unfold redBlockedRule
    rw [h1, h2]
    decide

/-- Witness for C3 (amended): "Partially Blocked" matches the "Blocked"
substring and is RED; "On Hold" does not trigger the blocked rule. -/
theorem default_blocked_vocab_witness :
    (classifyIssue defaultRAGConfig partiallyBlockedIssue).status = .RED ∧
    redBlockedRule defaultRAGConfig onHoldIssue = none :=
  ⟨(default_blocked_vocab partiallyBlockedIssue).2.1 (by decide),
   (default_blocked_vocab onHoldIssue).2.2.2 rfl rfl⟩

/-- C4: with `days_in_status = None` no day-threshold rule fires (neither
the high-priority-overdue RED rule nor the age, unassigned-overdue or
stalled-development AMBER rules); such an issue is RED or AMBER only
through the age-independent rules. -/
theorem none_days_no_day_rule (cfg : RAGConfig) (issue : Issue)
    (h : issue.days_in_status = none) :
    redOverdueRule cfg issue = none ∧
    amberAgeRule cfg issue = none ∧
    amberUnassignedRule cfg issue = none ∧
    amberStalledRule cfg issue = none ∧
    ((classifyIssue cfg issue).status = .RED →
      (redBlockedRule cfg issue).isSome ∨ (redBlockersRule issue).isSome ∨
      (redCriticalRule issue).isSome) ∧
    ((classifyIssue cfg issue).status = .AMBER →
      (amberPriorityRule cfg issue).isSome ∨ (amberRiskRule issue).isSome) := by
  have hro : redOverdueRule cfg issue = none := by
    unfold redOverdueRule; rw [h]
  have haa : amberAgeRule cfg issue = none := by
    unfold amberAgeRule; rw [h]
  have hau : amberUnassignedRule cfg issue = none := by
    unfold amberUnassignedRule; rw [h]; split <;> rfl
  have has : amberStalledRule cfg issue = none := by
    unfold amberStalledRule; rw [h]; split <;> rfl
  refine ⟨hro, haa, hau, has, ?_, ?_⟩
  · intro hred
    cases hr : checkRedConditions cfg issue with
    | some r =>
      rcases checkRed_some_cases hr with h1 | h2 | h3 | h4
      · exact Or.inl (by rw [h1]; rfl)
      · rw [hro] at h2; exact Option.noConfusion h2
      · exact Or.inr (Or.inl (by rw [h3]; rfl))
      · exact Or.inr (Or.inr (by rw [h4]; rfl))
    | none =>
      exfalso
      cases ha : checkAmberConditions cfg issue with
      | some a =>
        rw [classifyIssue_of_amber hr ha, checkAmber_status ha] at hred
        exact RAGStatus.noConfusion hred
      | none =>
        rw [classifyIssue_of_none hr ha] at hred
        exact RAGStatus.noConfusion hred
  · intro hamber
    cases hr : checkRedConditions cfg issue with
    | some r =>
      exfalso
      rw [classifyIssue_of_red hr, checkRed_status hr] at hamber
      exact RAGStatus.noConfusion hamber
    | none =>
      cases ha : checkAmberConditions cfg issue with
      | some a =>
        rcases checkAmber_some_cases ha with h1 | h2 | h3 | h4 | h5
        · rw [haa] at h1; exact Option.noConfusion h1
        · exact Or.inl (by rw [h2]; rfl)
        · exact Or.inr (by rw [h3]; rfl)
        · rw [hau] at h4; exact Option.noConfusion h4
        · rw [has] at h5; exact Option.noConfusion h5
      | none =>
        exfalso
        rw [classifyIssue_of_none hr ha] at hamber
        exact RAGStatus.noConfusion hamber

/-- Witness for C4: a high-priority issue of unknown age triggers no
day-based rule and is AMBER only through the age-independent priority
rule. -/
theorem none_days_no_day_rule_witness :
    redOverdueRule defaultRAGConfig noAgeHighIssue = none ∧
    amberAgeRule defaultRAGConfig noAgeHighIssue = none ∧
    ((amberPriorityRule defaultRAGConfig noAgeHighIssue).isSome ∨
      (amberRiskRule noAgeHighIssue).isSome) :=
  ⟨(none_days_no_day_rule defaultRAGConfig noAgeHighIssue rfl).1,
   (none_days_no_day_rule defaultRAGConfig noAgeHighIssue rfl).2.1,
   (none_days_no_day_rule defaultRAGConfig noAgeHighIssue rfl).2.2.2.2.2 (by decide)⟩

/-- A green-eligible issue that has sat in a non-development status far
past the yellow threshold. -/
def overageQuietIssue : Issue :=
  { key := "PROJ-6", summary := "old but quiet sample", status := sampleStatus "Code Review",
    priority := "Medium", assignee := some sampleUser, updated := 0, resolved := none,
    labels := [], blockers := [], days_in_status := some 10, is_blocked := false }

/-- C10: age beyond the yellow threshold alone never raises risk: an
unblocked, assigned, normally-prioritised, unlabelled issue in a
non-development status is GREEN no matter how large `days_in_status` is,
because the AMBER age rule only fires for ages at most the yellow
threshold. -/
theorem overage_alone_is_green (cfg : RAGConfig) (issue : Issue) (d : Int)
    (hd : issue.days_in_status = some d)
    (hgt : d > cfg.yellow_max_days_in_status)
    (hnb : issue.is_blocked = false)
    (hns : (cfg.blocked_statuses.map pyLower).any
      (fun status => strContains (pyLower issue.status.name) status) = false)
    (hbl : issue.blockers = [])
    (hpr : cfg.red_priority_levels.contains issue.priority = false)
    (hlab : issue.labels.all (fun label =>
      !(criticalLabels.any (fun critical => strContains (pyLower label) critical)) &&
      !(riskLabels.any (fun risk => strContains (pyLower label) risk))) = true)
    (hass : issue.assignee.isSome = true)
    (hdev : developmentStatuses.any
      (fun devStatus => strContains (pyLower issue.status.name) devStatus) = false) :
    classifyIssue cfg issue = greenResult ∧
    (∀ (issue2 : Issue) (r2 : RAGClassificationResult),
      amberAgeRule cfg issue2 = some r2 →
      ∃ d2 : Int, issue2.days_in_status = some d2 ∧
        d2 > cfg.green_max_days_in_status ∧ d2 ≤ cfg.yellow_max_days_in_status) := by
  have hlab' : ∀ label ∈ issue.labels,
      (criticalLabels.any (fun critical => strContains (pyLower label) critical)) = false ∧
      (riskLabels.any (fun risk => strContains (pyLower label) risk)) = false := by
    intro label hmem
    have h0 := List.all_eq_true.mp hlab label hmem
    simp only [Bool.and_eq_true, Bool.not_eq_true'] at h0
    exact h0
  have hrb : redBlockedRule cfg issue = none := by
    unfold redBlockedRule
    rw [hnb, hns]
    simp
  have hro : redOverdueRule cfg issue = none := by
    unfold redOverdueRule
    rw [hd, hpr]
    simp
  have hrbl : redBlockersRule issue = none := by
    unfold redBlockersRule
    rw [hbl]
    simp
  have hrc : redCriticalRule issue = none := by
    unfold redCriticalRule
    dsimp only
    have hf : issue.labels.filter
        (fun label => criticalLabels.any (fun critical => strContains (pyLower label) critical)) = [] := by
      rw [List.filter_eq_nil_iff]
      intro label hmem
      rw [(hlab' label hmem).1]
      simp
    rw [hf]
    simp
  have haa : amberAgeRule cfg issue = none := by
    unfold amberAgeRule
    rw [hd]
    have hle : ¬ (d ≤ cfg.yellow_max_days_in_status) := not_le.mpr hgt
    simp [hle]
  have hap : amberPriorityRule cfg issue = none := by
    unfold amberPriorityRule
    rw [hpr]
    simp
  have har : amberRiskRule issue = none := by
    unfold amberRiskRule
    dsimp only
    have hf : issue.labels.filter
        (fun label => riskLabels.any (fun risk => strContains (pyLower label) risk)) = [] := by
      rw [List.filter_eq_nil_iff]
      intro label hmem
      rw [(hlab' label hmem).2]
      simp
    rw [hf]
    simp
  have hau : amberUnassignedRule cfg issue = none := by
    have h0 : issue.assignee.isNone = false := by
      cases h2 : issue.assignee with
      | none => rw [h2] at hass; simp at hass
      | some v => rfl
    unfold amberUnassignedRule
    rw [h0]
    simp
  have has : amberStalledRule cfg issue = none := by
    unfold amberStalledRule
    rw [hdev]
    simp
  have hredn : checkRedConditions cfg issue = none := by
    unfold checkRedConditions
    rw [hrb, hro, hrbl, hrc]
  have hambn : checkAmberConditions cfg issue = none := by
    unfold checkAmberConditions
    rw [haa, hap, har, hau, has]
  refine ⟨classifyIssue_of_none hredn hambn, ?_⟩
  intro issue2 r2 h
  unfold amberAgeRule at h
  split at h
  · rename_i d2 hd2
    split at h
    · rename_i hgt2
      split at h
      · rename_i hle2
        exact ⟨d2, hd2, of_decide_eq_true hgt2, of_decide_eq_true hle2⟩
      · exact Option.noConfusion h
    · exact Option.noConfusion h
  · exact Option.noConfusion h

/-- Witness for C10: ten days in "Code Review" with no other risk signal
is GREEN under the default thresholds. -/
theorem overage_alone_is_green_witness :
    classifyIssue defaultRAGConfig overageQuietIssue = greenResult :=
  (overage_alone_is_green defaultRAGConfig overageQuietIssue 10 rfl (by decide) rfl
    (by decide) rfl (by decide) (by decide) rfl (by decide)).1

/-!  Lemmas relating `get_rag_summary` to per-status counts.  -/

lemma bumpSummary_total (s : RagSummary) (i : Issue) :
    (bumpSummary s i).total = s.total := by
  unfold bumpSummary
  cases h : i.rag_status with
  | none => rfl
  | some st => cases st <;> rfl

lemma bumpSummary_red (s : RagSummary) (i : Issue) :
    (bumpSummary s i).red = s.red + (if i.rag_status = some .RED then 1 else 0) := by
  unfold bumpSummary
  cases h : i.rag_status with
  | none => simp
  | some st => cases st <;> simp

lemma bumpSummary_amber (s : RagSummary) (i : Issue) :
    (bumpSummary s i).amber = s.amber + (if i.rag_status = some .AMBER then 1 else 0) := by
  unfold bumpSummary
  cases h : i.rag_status with
  | none => simp
  | some st => cases st <;> simp

lemma foldl_bump_total (l : List Issue) (s : RagSummary) :
    (l.foldl bumpSummary s).total = s.total := by
  induction l generalizing s with
  | nil => rfl
  | cons i t ih => rw [List.foldl_cons, ih, bumpSummary_total]

lemma foldl_bump_red (l : List Issue) (s : RagSummary) :
    (l.foldl bumpSummary s).red =
      s.red + l.countP (fun i => decide (i.rag_status = some .RED)) := by
  induction l generalizing s with
  | nil => simp
  | cons i t ih =>
    rw [List.foldl_cons, ih, bumpSummary_red, List.countP_cons]
    by_cases h : i.rag_status = some .RED <;> simp [h] <;> omega

lemma foldl_bump_amber (l : List Issue) (s : RagSummary) :
    (l.foldl bumpSummary s).amber =
      s.amber + l.countP (fun i => decide (i.rag_status = some .AMBER)) := by
  induction l generalizing s with
  | nil => simp
  | cons i t ih =>
    rw [List.foldl_cons, ih, bumpSummary_amber, List.countP_cons]
    by_cases h : i.rag_status = some .AMBER <;> simp [h] <;> omega

lemma getRagSummary_total (issues : List Issue) :
    (getRagSummary issues).total = issues.length := by
  unfold getRagSummary
  rw [foldl_bump_total]

lemma getRagSummary_red (issues : List Issue) :
    (getRagSummary issues).red =
      issues.countP (fun i => decide (i.rag_status = some .RED)) := by
  unfold getRagSummary
  rw [foldl_bump_red]
  exact Nat.zero_add _

lemma getRagSummary_amber (issues : List Issue) :
    (getRagSummary issues).amber =
      issues.countP (fun i => decide (i.rag_status = some .AMBER)) := by
  unfold getRagSummary
  rw [foldl_bump_amber]
  exact Nat.zero_add _

/-- C6: `get_overall_status` is GREEN on `[]`; on a non-empty list it is
RED exactly when some issue carries `rag_status` RED, otherwise AMBER
exactly when the amber fraction of the total strictly exceeds 0.2,
otherwise GREEN. -/
theorem overall_status_formula :
    getOverallStatus [] = .GREEN ∧
    ∀ issues : List Issue, issues ≠ [] →
      ((getOverallStatus issues = .RED ↔ ∃ i ∈ issues, i.rag_status = some .RED) ∧
       ((¬ ∃ i ∈ issues, i.rag_status = some .RED) →
         (getOverallStatus issues = .AMBER ↔
           ((issues.countP (fun i => decide (i.rag_status = some .AMBER)) : ℚ) /
             (issues.length : ℚ) > 0.2))) ∧
       ((¬ ∃ i ∈ issues, i.rag_status = some .RED) →
         ¬ ((issues.countP (fun i => decide (i.rag_status = some .AMBER)) : ℚ) /
             (issues.length : ℚ) > 0.2) →
         getOverallStatus issues = .GREEN)) := by
  constructor
  · rfl
  · intro issues hne
    have hne' : issues.isEmpty = false := by
      cases issues with
      | nil => exact absurd rfl hne
      | cons i t => rfl
    have hn : 0 < issues.length := List.length_pos.mpr hne
    have hexists : (0 < issues.countP (fun i => decide (i.rag_status = some .RED))) ↔
        ∃ i ∈ issues, i.rag_status = some .RED := by
      rw [List.countP_pos_iff]
      simp
    have hov : getOverallStatus issues =
        (if 0 < issues.countP (fun i => decide (i.rag_status = some .RED)) then RAGStatus.RED
         else if ((issues.countP (fun i => decide (i.rag_status = some .AMBER)) : ℚ) /
             (issues.length : ℚ)) > 0.2 then RAGStatus.AMBER
         else RAGStatus.GREEN) := by
      unfold getOverallStatus
      rw [hne']
      simp only [Bool.false_eq_true, if_false, getRagSummary_red, getRagSummary_amber,
        getRagSummary_total, if_pos hn]
    by_cases hcr : 0 < issues.countP (fun i => decide (i.rag_status = some .RED))
    · rw [hov, if_pos hcr]
      refine ⟨iff_of_true rfl (hexists.mp hcr), ?_, ?_⟩
      · intro hno
        exact absurd (hexists.mp hcr) hno
      · intro hno _
        exact absurd (hexists.mp hcr) hno
    · rw [hov, if_neg hcr]
      by_cases hfrac : ((issues.countP (fun i => decide (i.rag_status = some .AMBER)) : ℚ) /
          (issues.length : ℚ)) > 0.2
      · rw [if_pos hfrac]
        refine ⟨iff_of_false (by decide) (fun hex => hcr (hexists.mpr hex)), ?_, ?_⟩
        · intro _
          exact iff_of_true rfl hfrac
        · intro _ hnf
          exact absurd hfrac hnf
      · rw [if_neg hfrac]
        refine ⟨iff_of_false (by decide) (fun hex => hcr (hexists.mpr hex)), ?_, ?_⟩
        · intro _
          exact iff_of_false (by decide) hfrac
        · intro _ _
          rfl

/-- Witness for C6: five issues, one of them amber, give amber fraction
exactly 0.2, which is not strictly greater than 0.2, so the overall
status is GREEN; adding a red issue makes it RED. -/
theorem overall_status_formula_witness :
    getOverallStatus
      (List.replicate 4 { overageQuietIssue with rag_status := some .GREEN } ++
        [{ overageQuietIssue with rag_status := some .AMBER }]) = .GREEN ∧
    getOverallStatus [{ overageQuietIssue with rag_status := some .RED }] = .RED := by
  constructor
  · refine (overall_status_formula.2 _ (by decide)).2.2 (by decide) ?_
    have hc : List.countP (fun i => decide (i.rag_status = some RAGStatus.AMBER))
        (List.replicate 4 { overageQuietIssue with rag_status := some .GREEN } ++
          [{ overageQuietIssue with rag_status := some .AMBER }]) = 1 := by decide
    have hl : (List.replicate 4 { overageQuietIssue with rag_status := some .GREEN } ++
          [{ overageQuietIssue with rag_status := some .AMBER }]).length = 5 := by decide
    rw [hc, hl]
    norm_num
  · exact ((overall_status_formula.2 _ (by decide)).1).mpr
      ⟨{ overageQuietIssue with rag_status := some .RED }, List.mem_singleton.mpr rfl, rfl⟩

/-!  Lemmas about the report categorizer.  -/

lemma categorizeGo_started (ws we : Int) (issues : List Issue) :
    (categorizeGo ws we issues).1 = issues.filter (fun i => wasStartedThisWeek i ws we) := by
  induction issues with
  | nil => rfl
  | cons i t ih =>
    rcases hgo : categorizeGo ws we t with ⟨s, c, b, a⟩
    have hs : s = t.filter (fun i => wasStartedThisWeek i ws we) := by
      rw [← ih, hgo]
    unfold categorizeGo
    rw [hgo]
    dsimp only
    rw [List.filter_cons, hs]

lemma categorizeGo_completed (ws we : Int) (issues : List Issue) :
    (categorizeGo ws we issues).2.1 = issues.filter (fun i => wasCompletedThisWeek i ws we) := by
  induction issues with
  | nil => rfl
  | cons i t ih =>
    rcases hgo : categorizeGo ws we t with ⟨s, c, b, a⟩
    have hc : c = t.filter (fun i => wasCompletedThisWeek i ws we) := by
      rw [← ih, hgo]
    unfold categorizeGo
    rw [hgo]
    dsimp only
    rw [List.filter_cons, hc]

lemma categorizeGo_blocked (ws we : Int) (issues : List Issue) :
    (categorizeGo ws we issues).2.2.1 =
      issues.filter (fun i => i.rag_status == some .RED) := by
  induction issues with
  | nil => rfl
  | cons i t ih =>
    rcases hgo : categorizeGo ws we t with ⟨s, c, b, a⟩
    have hb : b = t.filter (fun i => i.rag_status == some .RED) := by
      rw [← ih, hgo]
    unfold categorizeGo
    rw [hgo]
    dsimp only
    rw [List.filter_cons, hb]

lemma categorizeGo_at_risk (ws we : Int) (issues : List Issue) :
    (categorizeGo ws we issues).2.2.2 =
      issues.filter (fun i => !(i.rag_status == some .RED) && (i.rag_status == some .AMBER)) := by
  induction issues with
  | nil => rfl
  | cons i t ih =>
    rcases hgo : categorizeGo ws we t with ⟨s, c, b, a⟩
    have ha : a = t.filter
        (fun i => !(i.rag_status == some .RED) && (i.rag_status == some .AMBER)) := by
      rw [← ih, hgo]
    unfold categorizeGo
    rw [hgo]
    dsimp only
    rw [List.filter_cons, ha]
    rcases hr : i.rag_status with _ | st
    · simp [hr]
    · cases st <;> simp [hr]

/-- Unfolding of `categorizeIssuesForReport` into filters over the input
list. -/
lemma categorize_fields (tn : String) (issues : List Issue) (we : Int) :
    categorizeIssuesForReport tn issues we =
      { team_name := tn,
        started_issues := issues.filter (fun i =>
          wasStartedThisWeek i ((we - 6) * microsPerDay) (we * microsPerDay + (microsPerDay - 1))),
        completed_issues := issues.filter (fun i =>
          wasCompletedThisWeek i ((we - 6) * microsPerDay) (we * microsPerDay + (microsPerDay - 1))),
        blocked_issues := issues.filter (fun i => i.rag_status == some .RED),
        at_risk_issues := issues.filter
          (fun i => !(i.rag_status == some .RED) && (i.rag_status == some .AMBER)),
        total_issues := issues.length,
        green_count := (issues.filter (fun i => i.rag_status == some .GREEN)).length,
        amber_count := (issues.filter (fun i => i.rag_status == some .AMBER)).length,
        red_count := (issues.filter (fun i => i.rag_status == some .RED)).length,
        overall_rag_status :=
          if (issues.filter (fun i => i.rag_status == some .RED)).length > 0 then .RED
          else if ((issues.filter (fun i => i.rag_status == some .AMBER)).length : ℚ) >
              ((issues.filter (fun i => i.rag_status == some .GREEN)).length : ℚ) * 0.3 then .AMBER
          else .GREEN } := by
  unfold categorizeIssuesForReport
  rcases hgo : categorizeGo ((we - 6) * microsPerDay)
      (we * microsPerDay + (microsPerDay - 1)) issues with ⟨s, c, b, a⟩
  have hs := categorizeGo_started ((we - 6) * microsPerDay)
    (we * microsPerDay + (microsPerDay - 1)) issues
  have hc := categorizeGo_completed ((we - 6) * microsPerDay)
    (we * microsPerDay + (microsPerDay - 1)) issues
  have hb := categorizeGo_blocked ((we - 6) * microsPerDay)
    (we * microsPerDay + (microsPerDay - 1)) issues
  have ha := categorizeGo_at_risk ((we - 6) * microsPerDay)
    (we * microsPerDay + (microsPerDay - 1)) issues
  rw [hgo] at hs hc hb ha
  dsimp only at hs hc hb ha ⊢
  rw [hgo]
  dsimp only
  rw [hs, hc, hb, ha]

/-- A single-issue list carrying an AMBER verdict. -/
def amberOnlyIssue : Issue :=
  { overageQuietIssue with key := "PROJ-7", rag_status := some RAGStatus.AMBER }

/-- Ten green and three amber classified issues: the two overall-status
formulas disagree here (3/13 > 0.2 but 3 is not > 10 * 0.3). -/
def divergenceIssues : List Issue :=
  List.replicate 10 { overageQuietIssue with rag_status := some RAGStatus.GREEN } ++
    List.replicate 3 { overageQuietIssue with rag_status := some RAGStatus.AMBER }

/-- C7: the report bucket's overall status is RED iff `red_count > 0`,
else AMBER iff `amber_count > green_count * 0.3`, else GREEN; the formula
is distinct from `get_overall_status` (a 0-red, 1-amber, 0-green bucket is
AMBER, and on ten green plus three amber issues the two helpers
disagree). -/
theorem bucket_overall_formula (tn : String) (issues : List Issue) (we : Int) :
    ((categorizeIssuesForReport tn issues we).overall_rag_status = .RED ↔
      0 < (categorizeIssuesForReport tn issues we).red_count) ∧
    ((categorizeIssuesForReport tn issues we).red_count = 0 →
      ((categorizeIssuesForReport tn issues we).overall_rag_status = .AMBER ↔
        ((categorizeIssuesForReport tn issues we).amber_count : ℚ) >
          ((categorizeIssuesForReport tn issues we).green_count : ℚ) * 0.3)) ∧
    ((categorizeIssuesForReport tn issues we).red_count = 0 →
      ¬ (((categorizeIssuesForReport tn issues we).amber_count : ℚ) >
          ((categorizeIssuesForReport tn issues we).green_count : ℚ) * 0.3) →
      (categorizeIssuesForReport tn issues we).overall_rag_status = .GREEN) ∧
    (categorizeIssuesForReport "team" [amberOnlyIssue] 0).overall_rag_status = .AMBER ∧
    getOverallStatus divergenceIssues = .AMBER ∧
    (categorizeIssuesForReport "team" divergenceIssues 0).overall_rag_status = .GREEN := by
  rw [categorize_fields]
  dsimp only
  refine ⟨?_, ?_, ?_, ?_, ?_, ?_⟩
  · by_cases hcr : 0 < (issues.filter (fun i => i.rag_status == some RAGStatus.RED)).length
    · rw [if_pos hcr]
      exact iff_of_true rfl hcr
    · rw [if_neg hcr]
      by_cases hfrac : ((issues.filter (fun i => i.rag_status == some RAGStatus.AMBER)).length : ℚ) >
          ((issues.filter (fun i => i.rag_status == some RAGStatus.GREEN)).length : ℚ) * 0.3
      · rw [if_pos hfrac]
        exact iff_of_false (by decide) hcr
      · rw [if_neg hfrac]
        exact iff_of_false (by decide) hcr
  · intro hz
    rw [hz]
    rw [if_neg (by omega)]
    by_cases hfrac : ((issues.filter (fun i => i.rag_status == some RAGStatus.AMBER)).length : ℚ) >
        ((issues.filter (fun i => i.rag_status == some RAGStatus.GREEN)).length : ℚ) * 0.3
    · rw [if_pos hfrac]
      exact iff_of_true rfl hfrac
    · rw [if_neg hfrac]
      exact iff_of_false (by decide) hfrac
  · intro hz hfrac
    rw [hz, if_neg (by omega), if_neg hfrac]
  · rw [categorize_fields]
    dsimp only
    have h1 : ([amberOnlyIssue].filter (fun i => i.rag_status == some RAGStatus.RED)).length = 0 := by
      decide
    have h2 : ([amberOnlyIssue].filter (fun i => i.rag_status == some RAGStatus.AMBER)).length = 1 := by
      decide
    have h3 : ([amberOnlyIssue].filter (fun i => i.rag_status == some RAGStatus.GREEN)).length = 0 := by
      decide
    rw [h1, h2, h3]
    norm_num
  · have h1 : divergenceIssues.isEmpty = false := by decide
    have h2 : getRagSummary divergenceIssues =
        { total := 13, green := 10, amber := 3, red := 0, unclassified := 0 } := by decide
    unfold getOverallStatus
    rw [h1, h2]
    norm_num
  · rw [categorize_fields]
    dsimp only
    have h1 : (divergenceIssues.filter (fun i => i.rag_status == some RAGStatus.RED)).length = 0 := by
      decide
    have h2 : (divergenceIssues.filter (fun i => i.rag_status == some RAGStatus.AMBER)).length = 3 := by
      decide
    have h3 : (divergenceIssues.filter (fun i => i.rag_status == some RAGStatus.GREEN)).length = 10 := by
      decide
    rw [h1, h2, h3]
    norm_num

/-- Witness for C7: one red and one amber issue make the bucket RED. -/
theorem bucket_overall_formula_witness :
    (categorizeIssuesForReport "team"
      [{ amberOnlyIssue with rag_status := some RAGStatus.RED }, amberOnlyIssue] 0).overall_rag_status
      = .RED := by
  refine (bucket_overall_formula "team"
    [{ amberOnlyIssue with rag_status := some RAGStatus.RED }, amberOnlyIssue] 0).1.mpr ?_
  rw [categorize_fields]
  decide

lemma wasCompleted_iff (issue : Issue) (ws we : Int) :
    wasCompletedThisWeek issue ws we = true ↔
      ∃ r : Int, issue.resolved = some r ∧ ws ≤ r ∧ r ≤ we := by
  unfold wasCompletedThisWeek
  cases h : issue.resolved with
  | none => simp
  | some r => simp [h]

lemma countP_rag_partition (issues : List Issue) :
    issues.countP (fun i => i.rag_status == some RAGStatus.GREEN) +
    issues.countP (fun i => i.rag_status == some RAGStatus.AMBER) +
    issues.countP (fun i => i.rag_status == some RAGStatus.RED) +
    issues.countP (fun i => i.rag_status == none) = issues.length := by
  induction issues with
  | nil => rfl
  | cons i t ih =>
    simp only [List.countP_cons, List.length_cons]
    rcases h : i.rag_status with _ | st
    · simp [h]
      omega
    · cases st <;> simp [h] <;> omega

/-- An issue resolved on day 4 (within the window ending on day 7). -/
def completedIssue : Issue :=
  { key := "PROJ-8", summary := "completed sample", status := sampleStatus "Done",
    priority := "Medium", assignee := some sampleUser, updated := 0,
    resolved := some (4 * microsPerDay + 123), labels := [], blockers := [],
    rag_status := some RAGStatus.GREEN }

/-- C8: an issue lands in the completed bucket exactly when its resolved
timestamp is non-null and inside the inclusive reporting window, and the
aggregate counts tally every input issue exactly once over the full list,
independent of bucket membership. -/
theorem categorize_completed_window_and_counts (tn : String) (issues : List Issue) (we : Int) :
    (∀ issue : Issue,
      issue ∈ (categorizeIssuesForReport tn issues we).completed_issues ↔
        (issue ∈ issues ∧ ∃ r : Int, issue.resolved = some r ∧
          (we - 6) * microsPerDay ≤ r ∧ r ≤ we * microsPerDay + (microsPerDay - 1))) ∧
    (categorizeIssuesForReport tn issues we).total_issues = issues.length ∧
    (categorizeIssuesForReport tn issues we).green_count =
      issues.countP (fun i => i.rag_status == some RAGStatus.GREEN) ∧
    (categorizeIssuesForReport tn issues we).amber_count =
      issues.countP (fun i => i.rag_status == some RAGStatus.AMBER) ∧
    (categorizeIssuesForReport tn issues we).red_count =
      issues.countP (fun i => i.rag_status == some RAGStatus.RED) ∧
    (categorizeIssuesForReport tn issues we).green_count +
      (categorizeIssuesForReport tn issues we).amber_count +
      (categorizeIssuesForReport tn issues we).red_count +
      issues.countP (fun i => i.rag_status == none) = issues.length := by
  rw [categorize_fields]
  dsimp only
  refine ⟨?_, rfl, (List.countP_eq_length_filter _ _).symm,
    (List.countP_eq_length_filter _ _).symm, (List.countP_eq_length_filter _ _).symm, ?_⟩
  · intro issue
    rw [List.mem_filter]
    exact and_congr_right fun _ => wasCompleted_iff issue _ _
  · rw [← List.countP_eq_length_filter, ← List.countP_eq_length_filter,
      ← List.countP_eq_length_filter]
    exact countP_rag_partition issues

/-- Witness for C8: a single issue resolved mid-window appears in the
completed bucket and is counted once. -/
theorem categorize_completed_window_witness :
    completedIssue ∈ (categorizeIssuesForReport "team" [completedIssue] 7).completed_issues ∧
    (categorizeIssuesForReport "team" [completedIssue] 7).total_issues = 1 ∧
    (categorizeIssuesForReport "team" [completedIssue] 7).green_count = 1 := by
  refine ⟨?_, ?_, ?_⟩
  · exact ((categorize_completed_window_and_counts "team" [completedIssue] 7).1 completedIssue).mpr
      ⟨List.mem_singleton.mpr rfl, 4 * microsPerDay + 123, rfl, by decide, by decide⟩
  · rw [(categorize_completed_window_and_counts "team" [completedIssue] 7).2.1]
    rfl
  · rw [(categorize_completed_window_and_counts "team" [completedIssue] 7).2.2.1]
    decide

/-!  Lemmas about batch classification.  -/

lemma classifyBatchGo_eq (cfg : RAGConfig) (acc : List (String × RAGClassificationResult))
    (issues : List Issue) :
    classifyBatchGo cfg acc issues =
      (issues.foldl (fun m issue => dictInsert m issue.key (classifyIssue cfg issue)) acc,
       issues.map (fun issue => updateIssueWith issue (classifyIssue cfg issue))) := by
  induction issues generalizing acc with
  | nil => rfl
  | cons i t ih =>
    unfold classifyBatchGo
    dsimp only
    rw [ih]
    rfl

lemma classifyBatchEGo_eq (cfg : RAGConfig) (fail : Issue → Option String)
    (acc : List (String × RAGClassificationResult)) (issues : List Issue) :
    classifyBatchEGo cfg fail acc issues =
      (issues.foldl (fun m issue => dictInsert m issue.key (batchResultOf cfg fail issue)) acc,
       issues.map (fun issue => updateIssueWith issue (batchResultOf cfg fail issue))) := by
  induction issues generalizing acc with
  | nil => rfl
  | cons i t ih =>
    unfold classifyBatchEGo
    dsimp only
    rw [ih]
    rfl

lemma updateIssueWith_key (issue : Issue) (r : RAGClassificationResult) :
    (updateIssueWith issue r).key = issue.key := rfl

lemma classifyIssue_update (cfg : RAGConfig) (issue : Issue) (r : RAGClassificationResult) :
    classifyIssue cfg (updateIssueWith issue r) = classifyIssue cfg issue := by
  cases issue
  rfl

lemma updateIssueWith_idem (issue : Issue) (r : RAGClassificationResult) :
    updateIssueWith (updateIssueWith issue r) r = updateIssueWith issue r := by
  cases issue
  rfl

/-- C9: `classify_issues_batch` is idempotent: re-running the batch on the
issue list it has just mutated yields the same verdict map and leaves
every issue's `rag_status`/`rag_reason` unchanged (classification reads no
field that classification writes). -/
theorem classify_batch_idempotent (cfg : RAGConfig) (issues : List Issue) :
    classifyIssuesBatch cfg (classifyIssuesBatch cfg issues).2 = classifyIssuesBatch cfg issues := by
  unfold classifyIssuesBatch
  rw [classifyBatchGo_eq cfg [] issues, classifyBatchGo_eq]
  rw [List.foldl_map, List.map_map]
  have h1 : issues.foldl
      (fun m issue => dictInsert m (updateIssueWith issue (classifyIssue cfg issue)).key
        (classifyIssue cfg (updateIssueWith issue (classifyIssue cfg issue)))) [] =
      issues.foldl (fun m issue => dictInsert m issue.key (classifyIssue cfg issue)) [] := by
    apply List.foldl_ext
    intro m issue _
    rw [classifyIssue_update, updateIssueWith_key]
  have h2 : issues.map
      ((fun issue => updateIssueWith issue (classifyIssue cfg issue)) ∘
        (fun issue => updateIssueWith issue (classifyIssue cfg issue))) =
      issues.map (fun issue => updateIssueWith issue (classifyIssue cfg issue)) := by
    apply List.map_congr_left
    intro issue _
    show updateIssueWith (updateIssueWith issue (classifyIssue cfg issue))
      (classifyIssue cfg (updateIssueWith issue (classifyIssue cfg issue))) =
      updateIssueWith issue (classifyIssue cfg issue)
    rw [classifyIssue_update, updateIssueWith_idem]
  rw [h1, h2]

lemma lookup_cons_eq (a k : String) (v : RAGClassificationResult)
    (t : List (String × RAGClassificationResult)) :
    List.lookup a ((k, v) :: t) = if a = k then some v else List.lookup a t := by
  by_cases h : a = k
  · simp [List.lookup, h]
  · have hb : (a == k) = false := by simp [h]
    simp [List.lookup, hb, h]

lemma lookup_dictInsert (m : List (String × RAGClassificationResult)) (k k' : String)
    (v : RAGClassificationResult) :
    List.lookup k' (dictInsert m k v) = if k' = k then some v else List.lookup k' m := by
  induction m with
  | nil =>
    unfold dictInsert
    rw [lookup_cons_eq]
  | cons p t ih =>
    obtain ⟨k0, v0⟩ := p
    unfold dictInsert
    by_cases h0 : k0 = k
    · subst h0
      simp only [beq_self_eq_true, if_true]
      rw [lookup_cons_eq, lookup_cons_eq]
      by_cases h : k' = k0 <;> simp [h]
    · rw [if_neg (by simpa using h0), lookup_cons_eq, lookup_cons_eq, ih]
      by_cases h : k' = k0
      · subst h
        have hne : ¬ (k' = k) := fun hc => h0 (hc ▸ rfl)
        simp [hne]
      · simp [h]

lemma lookup_foldl_dictInsert (f : Issue → RAGClassificationResult)
    (acc : List (String × RAGClassificationResult)) (issues : List Issue) (k : String) :
    List.lookup k (issues.foldl (fun m issue => dictInsert m issue.key (f issue)) acc) =
      match issues.reverse.find? (fun issue => issue.key == k) with
      | some issue => some (f issue)
      | none => List.lookup k acc := by
  induction issues generalizing acc with
  | nil => rfl
  | cons i t ih =>
    rw [List.foldl_cons, ih, List.reverse_cons, List.find?_append]
    cases hf : t.reverse.find? (fun issue => issue.key == k) with
    | some j => simp [hf, Option.or]
    | none =>
      simp only [hf, Option.none_or]
      rw [lookup_dictInsert]
      by_cases h : i.key = k
      · have h1 : List.find? (fun issue => issue.key == k) [i] = some i :=
          List.find?_cons_of_pos _ (by simp [h])
        rw [h1]
        simp [h.symm]
      · have h1 : List.find? (fun issue => issue.key == k) [i] = none := by
          rw [List.find?_cons_of_neg _ (by simp [h]), List.find?_nil]
        rw [h1]
        have hk : ¬ (k = i.key) := fun hc => h hc.symm
        simp [hk]

/-- C5: in the batch classifier, an issue whose classification raises gets
the degraded AMBER verdict (confidence 0, error reason), its
`rag_status`/`rag_reason` are written accordingly, and every other issue
is still classified — the batch never aborts. -/
theorem classify_batch_error_isolation (cfg : RAGConfig) (fail : Issue → Option String)
    (issues : List Issue) (i : ℕ) (e : String) (hi : i < issues.length)
    (hf : fail (issues.get ⟨i, hi⟩) = some e) :
    (classifyBatchE cfg fail issues).2.length = issues.length ∧
    ((classifyBatchE cfg fail issues).2[i]? =
      some (updateIssueWith (issues.get ⟨i, hi⟩) (errorResult e))) ∧
    (updateIssueWith (issues.get ⟨i, hi⟩) (errorResult e)).rag_status = some .AMBER ∧
    (updateIssueWith (issues.get ⟨i, hi⟩) (errorResult e)).rag_reason =
      some ("Classification error: " ++ e) ∧
    (errorResult e).confidence = 0 ∧
    (∀ issue ∈ issues,
      (List.lookup issue.key (classifyBatchE cfg fail issues).1).isSome = true) ∧
    ((issues.map Issue.key).Nodup →
      List.lookup (issues.get ⟨i, hi⟩).key (classifyBatchE cfg fail issues).1 =
        some (errorResult e)) ∧
    (∀ (j : ℕ) (hj : j < issues.length), fail (issues.get ⟨j, hj⟩) = none →
      (classifyBatchE cfg fail issues).2[j]? =
        some (updateIssueWith (issues.get ⟨j, hj⟩)
          (classifyIssue cfg (issues.get ⟨j, hj⟩)))) := by
  have hm : (classifyBatchE cfg fail issues).1 =
      issues.foldl (fun m issue => dictInsert m issue.key (batchResultOf cfg fail issue)) [] := by
    unfold classifyBatchE
    rw [classifyBatchEGo_eq]
  have hu : (classifyBatchE cfg fail issues).2 =
      issues.map (fun issue => updateIssueWith issue (batchResultOf cfg fail issue)) := by
    unfold classifyBatchE
    rw [classifyBatchEGo_eq]
  have hres : batchResultOf cfg fail (issues.get ⟨i, hi⟩) = errorResult e := by
    unfold batchResultOf classifyIssueE
    rw [hf]
  refine ⟨?_, ?_, rfl, rfl, rfl, ?_, ?_, ?_⟩
  · rw [hu, List.length_map]
  · rw [hu, List.getElem?_map, List.getElem?_eq_getElem hi]
    simp only [Option.map_some']
    rw [show issues[i] = issues.get ⟨i, hi⟩ from rfl, hres]
  · intro issue hmem
    rw [hm, lookup_foldl_dictInsert (batchResultOf cfg fail)]
    cases hfind : issues.reverse.find? (fun x => x.key == issue.key) with
    | some j => rfl
    | none =>
      exfalso
      exact absurd (by simp : (issue.key == issue.key) = true)
        (List.find?_eq_none.mp hfind issue (List.mem_reverse.mpr hmem))
  · intro hnodup
    rw [hm, lookup_foldl_dictInsert (batchResultOf cfg fail)]
    cases hfind : issues.reverse.find? (fun x => x.key == (issues.get ⟨i, hi⟩).key) with
    | none =>
      exfalso
      exact absurd (by simp : ((issues.get ⟨i, hi⟩).key == (issues.get ⟨i, hi⟩).key) = true)
        (List.find?_eq_none.mp hfind (issues.get ⟨i, hi⟩)
          (List.mem_reverse.mpr (issues.get_mem i hi)))
    | some j =>
      have hj1 : j ∈ issues := List.mem_reverse.mp (List.mem_of_find?_eq_some hfind)
      have hj2 : j.key = (issues.get ⟨i, hi⟩).key := by
        simpa using List.find?_some hfind
      have hjeq : j = issues.get ⟨i, hi⟩ :=
        List.inj_on_of_nodup_map hnodup hj1 (issues.get_mem i hi) hj2
      rw [hjeq]
      show some (batchResultOf cfg fail (issues.get ⟨i, hi⟩)) = some (errorResult e)
      rw [hres]
  · intro j hj hnone
    rw [hu, List.getElem?_map, List.getElem?_eq_getElem hj]
    simp only [Option.map_some']
    have : batchResultOf cfg fail (issues.get ⟨j, hj⟩) =
        classifyIssue cfg (issues.get ⟨j, hj⟩) := by
      unfold batchResultOf classifyIssueE
      rw [hnone]
    rw [show issues[j] = issues.get ⟨j, hj⟩ from rfl, this]

/-- A two-issue batch whose second issue raises during classification. -/
def failingBatch : List Issue :=
  [{ overageQuietIssue with key := "PROJ-A" }, { overageQuietIssue with key := "PROJ-B" }]

/-- The abstract exception oracle for the witness: classifying "PROJ-B"
raises with message "boom". -/
def batchFail : Issue → Option String :=
  fun issue => if issue.key == "PROJ-B" then some "boom" else none

/-- Witness for C5: the failing issue gets the zero-confidence AMBER error
verdict while the other issue is still classified. -/
theorem classify_batch_error_isolation_witness :
    (classifyBatchE defaultRAGConfig batchFail failingBatch).2.length = 2 ∧
    List.lookup "PROJ-B" (classifyBatchE defaultRAGConfig batchFail failingBatch).1 =
      some (errorResult "boom") ∧
    (List.lookup "PROJ-A"
      (classifyBatchE defaultRAGConfig batchFail failingBatch).1).isSome = true := by
  have h := classify_batch_error_isolation defaultRAGConfig batchFail failingBatch 1 "boom"
    (by decide) (by decide)
  refine ⟨?_, ?_, ?_⟩
  · rw [h.1]
    rfl
  · exact h.2.2.2.2.2.2.1 (by decide)
  · exact h.2.2.2.2.2.1 { overageQuietIssue with key := "PROJ-A" } (by decide)

end JiraRag
